import Mathlib

/-!
Shallow embedding, over exact rational arithmetic, of the operational core of
the airport facility simulation: the queue dynamics of `src/queue_dynamics.py`
(`QueueDynamics.compute_waiting_time`, `QueueDynamics.update_queue_states`),
the flow-splitting policies of `src/assignment_methods.py`
(`AssignmentMethods.assign_flows_logit`, `assign_flows_deterministic`,
`assign_flows_proportional`), and the scheduling state updates of
`src/cleaning_crew_optimizer.py` (`_calculate_travel_time`,
`_preempt_crew_task`, `_check_for_real_time_call_ins`, supply
consumption/restocking inside `update_crew_status`).

Python floats are modelled by `ℚ`; `np.exp` is abstracted as an arbitrary
function parameter where a property does not depend on it.
-/

namespace QueueDynamics

/-- The arrival-rate cap applied at the top of
`QueueDynamics.compute_waiting_time`: an arrival rate at or above
`0.99 * capacity` is replaced by `0.95 * capacity`. -/
def clip_lambda (lambda_r capacity : ℚ) : ℚ :=
  if capacity * (99/100) ≤ lambda_r then capacity * (95/100) else lambda_r

/-- `QueueDynamics.compute_waiting_time` from `src/queue_dynamics.py`:
the enhanced M/M/1 expected waiting time given the arrival rate, the section
service capacity and the current queue length. -/
def compute_waiting_time (lambda_r capacity current_queue : ℚ) : ℚ :=
  if lambda_r ≤ 0 then
    if 0 < capacity ∧ 0 < current_queue then current_queue / capacity else 0
  else
    let l := clip_lambda lambda_r capacity
    let rho := l / capacity
    if 0 < current_queue then
      current_queue / capacity +
        (if rho < 99/100 then rho / (capacity * (1 - rho))
         else current_queue / capacity)
    else
      if rho < 99/100 then max 0 ((rho / (1 + rho)) / (capacity - l))
      else l / (capacity * capacity) * 10

/-- One step of `QueueDynamics.update_queue_states` for a single section:
the ramped service rate `capacity * min 1 (queue / 2)`, Forward-Euler
integration of the net flow, and the anti-oscillation snap of any candidate
value below `0.01` to `0`. -/
def update_queue_step (capacity current_queue arrival_rate dt : ℚ) : ℚ :=
  let service_rate :=
    if current_queue ≤ 0 then 0 else capacity * min 1 (current_queue / 2)
  let new_queue := current_queue + dt * (arrival_rate - service_rate)
  if new_queue < 1/100 then 0 else new_queue

/-- The queue-length trajectory of one section: `L[0] = 0` (the arrays are
zero-initialized in `QueueDynamics.__init__`) and `L[t+1]` is produced by
`update_queue_states` from `L[t]` and the arrival rate at `t`. -/
def queue_traj (capacity dt : ℚ) (arrival : ℕ → ℚ) : ℕ → ℚ
  | 0 => 0
  | t + 1 => update_queue_step capacity (queue_traj capacity dt arrival t) (arrival t) dt

theorem clip_lambda_pos {l c : ℚ} (hl : 0 < l) (hc : 0 < c) :
    0 < clip_lambda l c := by
  unfold clip_lambda
  split_ifs <;> nlinarith

theorem clip_lambda_rho_lt {l c : ℚ} (hl : 0 < l) (hc : 0 < c) :
    clip_lambda l c / c < 99/100 := by
  unfold clip_lambda
  split_ifs with h
  · rw [mul_comm, mul_div_assoc, div_self (ne_of_gt hc), mul_one]
    norm_num
  · rw [div_lt_iff hc]
    push_neg at h
    linarith

theorem clip_lambda_rho_pos {l c : ℚ} (hl : 0 < l) (hc : 0 < c) :
    0 < clip_lambda l c / c :=
  div_pos (clip_lambda_pos hl hc) hc

theorem clip_lambda_lt_cap {l c : ℚ} (hl : 0 < l) (hc : 0 < c) :
    clip_lambda l c < c := by
  have h := clip_lambda_rho_lt hl hc
  rw [div_lt_iff hc] at h
  linarith

theorem clip_lambda_of_lt {l c : ℚ} (h : l < c * (99/100)) :
    clip_lambda l c = l := by
  unfold clip_lambda
  rw [if_neg (not_le.mpr h)]

theorem cap_sub_clip_eq {l c : ℚ} (hc : 0 < c) :
    c * (1 - clip_lambda l c / c) = c - clip_lambda l c := by
  field_simp

/-- For a strictly positive arrival rate, `compute_waiting_time` always takes
the `rho < 0.99` branch (the clipped utilization is below `0.99`), so its
value is given by the two stable-regime formulas. -/
theorem compute_waiting_time_eval_pos {l c : ℚ} (hl : 0 < l) (hc : 0 < c)
    (q : ℚ) :
    compute_waiting_time l c q =
      if 0 < q then
        q / c + (clip_lambda l c / c) / (c * (1 - clip_lambda l c / c))
      else
        max 0 (((clip_lambda l c / c) / (1 + clip_lambda l c / c)) /
          (c - clip_lambda l c)) := by
  have hrho := clip_lambda_rho_lt hl hc
  unfold compute_waiting_time
  rw [if_neg (not_le.mpr hl)]
  dsimp only
  by_cases hq : 0 < q
  · rw [if_pos hq, if_pos hq, if_pos hrho]
  · rw [if_neg hq, if_neg hq, if_pos hrho]

/-- Monotonicity of the zero-queue M/M/1 wait `(rho/(1+rho))/(c - l)` in the
arrival rate, below capacity. -/
theorem mm1_wait_mono {c a b : ℚ} (hc : 0 < c) (ha : 0 < a) (hab : a ≤ b)
    (hb : b < c) :
    ((a/c) / (1 + a/c)) / (c - a) ≤ ((b/c) / (1 + b/c)) / (c - b) := by
  have hbpos : 0 < b := lt_of_lt_of_le ha hab
  have hac : 0 < c + a := by linarith
  have hbc : 0 < c + b := by linarith
  have hca : 0 < c - a := by linarith
  have hcb : 0 < c - b := by linarith
  have h1a : (0:ℚ) < 1 + a/c := by positivity
  have h1b : (0:ℚ) < 1 + b/c := by positivity
  have e1 : (a/c) / (1 + a/c) = a / (c + a) := by
    rw [div_eq_div_iff h1a.ne' hac.ne']
    field_simp
  have e2 : (b/c) / (1 + b/c) = b / (c + b) := by
    rw [div_eq_div_iff h1b.ne' hbc.ne']
    field_simp
  rw [e1, e2, div_div, div_div,
    div_le_div_iff₀ (by positivity) (by positivity)]
  nlinarith [mul_nonneg (sub_nonneg.mpr hab) (by positivity : (0:ℚ) ≤ c^2 + a*b)]

/-- `compute_waiting_time` is non-decreasing in the current queue length for a
fixed positive capacity and fixed arrival rate. -/
theorem compute_waiting_time_mono_queue {c : ℚ} (hc : 0 < c) (l q1 q2 : ℚ)
    (hq12 : q1 ≤ q2) :
    compute_waiting_time l c q1 ≤ compute_waiting_time l c q2 := by
  by_cases hl : l ≤ 0
  · unfold compute_waiting_time
    rw [if_pos hl, if_pos hl]
    split_ifs with h1 h2 h3
    · gcongr
    · exact absurd ⟨hc, lt_of_lt_of_le h1.2 hq12⟩ h2
    · exact div_nonneg h3.2.le hc.le
    · exact le_refl 0
  · push_neg at hl
    rw [compute_waiting_time_eval_pos hl hc q1,
      compute_waiting_time_eval_pos hl hc q2]
    have hρpos := clip_lambda_rho_pos hl hc
    have hρlt := clip_lambda_rho_lt hl hc
    have h1ρ : 0 < 1 - clip_lambda l c / c := by linarith
    have hden : 0 < c * (1 - clip_lambda l c / c) := mul_pos hc h1ρ
    have hsub : 0 < c - clip_lambda l c := sub_pos.mpr (clip_lambda_lt_cap hl hc)
    split_ifs with h1 h2 h3
    · exact add_le_add_right (by gcongr) _
    · linarith
    · apply max_le
      · positivity
      · calc ((clip_lambda l c / c) / (1 + clip_lambda l c / c)) /
              (c - clip_lambda l c)
            ≤ (clip_lambda l c / c) / (c - clip_lambda l c) :=
              (div_le_div_right hsub).mpr
                (div_le_self hρpos.le (by linarith))
          _ = (clip_lambda l c / c) / (c * (1 - clip_lambda l c / c)) := by
              rw [cap_sub_clip_eq hc]
          _ ≤ q2 / c + (clip_lambda l c / c) /
              (c * (1 - clip_lambda l c / c)) := by
              have hq2c : 0 ≤ q2 / c := div_nonneg h3.le hc.le
              linarith
    · exact le_refl _

/-- `compute_waiting_time` is non-decreasing in the arrival rate for a fixed
positive capacity and fixed queue, on the region strictly below the
`0.99 * capacity` clipping threshold. -/
theorem compute_waiting_time_mono_lambda {c : ℚ} (hc : 0 < c) (q l1 l2 : ℚ)
    (hq : 0 ≤ q) (hl1 : 0 ≤ l1) (h12 : l1 ≤ l2) (h2 : l2 < c * (99/100)) :
    compute_waiting_time l1 c q ≤ compute_waiting_time l2 c q := by
  by_cases hl2 : l2 ≤ 0
  · have hl1' : l1 ≤ 0 := le_trans h12 hl2
    unfold compute_waiting_time
    rw [if_pos hl1', if_pos hl2]
  · push_neg at hl2
    have hclip2 : clip_lambda l2 c = l2 := clip_lambda_of_lt h2
    have hρ2pos : 0 < l2 / c := div_pos hl2 hc
    have hρ2lt : l2 / c < 99/100 := by
      rw [div_lt_iff₀ hc]; linarith
    have hsub2 : 0 < c - l2 := by nlinarith
    have hd2 : 0 < c * (1 - l2/c) := by nlinarith
    rw [compute_waiting_time_eval_pos hl2 hc q, hclip2]
    by_cases hl1p : 0 < l1
    · have hclip1 : clip_lambda l1 c = l1 :=
        clip_lambda_of_lt (lt_of_le_of_lt h12 h2)
      rw [compute_waiting_time_eval_pos hl1p hc q, hclip1]
      have hρ1pos : 0 < l1 / c := div_pos hl1p hc
      have hρ1lt : l1 / c < 99/100 := by
        rw [div_lt_iff₀ hc]; linarith
      have hsub1 : 0 < c - l1 := by nlinarith
      have hd1 : 0 < c * (1 - l1/c) := by nlinarith
      split_ifs with hqp
      · have e1 : c * (1 - l1/c) = c - l1 := by field_simp
        have e2 : c * (1 - l2/c) = c - l2 := by field_simp
        have key : (l1/c) / (c * (1 - l1/c)) ≤ (l2/c) / (c * (1 - l2/c)) := by
          rw [e1, e2, div_div, div_div,
            div_le_div_iff (by positivity) (by positivity)]
          nlinarith [mul_le_mul_of_nonneg_right h12 (mul_pos hc hc).le]
        linarith
      · exact max_le_max le_rfl
          (mm1_wait_mono hc hl1p h12 (by nlinarith))
    · have hl1' : l1 ≤ 0 := not_lt.mp hl1p
      unfold compute_waiting_time
      rw [if_pos hl1']
      split_ifs with ha hb hb
      · have h0 : 0 ≤ (l2 / c) / (c * (1 - l2 / c)) := by positivity
        linarith
      · exact absurd ha.2 hb
      · exact absurd ⟨hc, hb⟩ ha
      · exact le_max_left 0 _

end QueueDynamics

namespace AssignmentMethods

/-- `AssignmentMethods.assign_flows_logit` from `src/assignment_methods.py`.
A cost map (Python dict) is an association list of (restroom key, cost).
`np.exp` is abstracted as the function parameter `expf`: every property
proved here holds for the true exponential in exact arithmetic, because none
of them depends on which function is applied to the shifted utilities. -/
def assign_flows_logit (expf : ℚ → ℚ) (theta total_flow : ℚ) :
    List (ℕ × ℚ) → List (ℕ × ℚ)
  | [] => []
  | c :: cs =>
    if total_flow ≤ 0 then (c :: cs).map (fun rc => (rc.1, 0)) else
    let utilities := (c :: cs).map (fun rc => (rc.1, -theta * rc.2))
    let maxU := (utilities.map Prod.snd).foldl max (-theta * c.2)
    let expU := utilities.map (fun ru => (ru.1, expf (ru.2 - maxU)))
    let sumExp := (expU.map Prod.snd).sum
    if sumExp = 0 then
      (c :: cs).map (fun rc => (rc.1, total_flow / ((c :: cs).length : ℚ)))
    else
      expU.map (fun ru => (ru.1, total_flow * (ru.2 / sumExp)))

/-- `AssignmentMethods.assign_flows_deterministic` from
`src/assignment_methods.py`: all flow to the first minimum-cost key
(Python `min` over dict iteration order keeps the earliest tie). -/
def assign_flows_deterministic (total_flow : ℚ) :
    List (ℕ × ℚ) → List (ℕ × ℚ)
  | [] => []
  | c :: cs =>
    if total_flow ≤ 0 then (c :: cs).map (fun rc => (rc.1, 0)) else
    let m := cs.foldl (fun acc rc => if rc.2 < acc.2 then rc else acc) c
    (c :: cs).map (fun rc => (rc.1, if rc.1 = m.1 then total_flow else 0))

/-- `AssignmentMethods.assign_flows_proportional` from
`src/assignment_methods.py`: flow proportional to `max_cost - cost + 1`,
with an equal-split fallback when the inverse costs sum to zero. -/
def assign_flows_proportional (total_flow : ℚ) :
    List (ℕ × ℚ) → List (ℕ × ℚ)
  | [] => []
  | c :: cs =>
    if total_flow ≤ 0 then (c :: cs).map (fun rc => (rc.1, 0)) else
    let maxC := ((c :: cs).map Prod.snd).foldl max c.2
    let inv := (c :: cs).map (fun rc => (rc.1, maxC - rc.2 + 1))
    let totalInv := (inv.map Prod.snd).sum
    if totalInv = 0 then
      (c :: cs).map (fun rc => (rc.1, total_flow / ((c :: cs).length : ℚ)))
    else
      inv.map (fun rc => (rc.1, total_flow * (rc.2 / totalInv)))

/-- Normalized assignment conserves flow: when the weights of an association
list sum to a non-zero `S`, the flows `F * (w / S)` sum to `F`. -/
theorem normalized_flows_sum (w : List (ℕ × ℚ)) (F : ℚ)
    (hS : (w.map Prod.snd).sum ≠ 0) :
    ((w.map (fun ru =>
        (ru.1, F * (ru.2 / (w.map Prod.snd).sum)))).map Prod.snd).sum = F := by
  rw [List.map_map]
  have he : (Prod.snd ∘ fun ru : ℕ × ℚ =>
      (ru.1, F * (ru.2 / (w.map Prod.snd).sum))) =
      fun ru : ℕ × ℚ => F / (w.map Prod.snd).sum * ru.2 := by
    funext ru
    simp only [Function.comp_apply]
    ring
  rw [he, List.sum_map_mul_left, div_mul_cancel₀ _ hS]

/-- Equal split conserves flow: each of the `n` keys receives `F / n`, and
these sum to `F` for a non-empty list. -/
theorem equal_split_flows_sum (w : List (ℕ × ℚ)) (F : ℚ) (hw : w ≠ []) :
    ((w.map (fun rc =>
        (rc.1, F / (w.length : ℚ)))).map Prod.snd).sum = F := by
  rw [List.map_map]
  have he : (Prod.snd ∘ fun rc : ℕ × ℚ => (rc.1, F / (w.length : ℚ))) =
      fun _ : ℕ × ℚ => F / (w.length : ℚ) := rfl
  rw [he, List.map_const', List.sum_replicate, nsmul_eq_mul, mul_comm,
    div_mul_cancel₀]
  exact_mod_cast (Nat.cast_ne_zero (R := ℚ)).mpr
    (List.length_pos.mpr hw).ne'

theorem assign_flows_logit_sum (expf : ℚ → ℚ) (theta F : ℚ) (c : ℕ × ℚ)
    (cs : List (ℕ × ℚ)) (hF : 0 < F) :
    ((assign_flows_logit expf theta F (c :: cs)).map Prod.snd).sum = F := by
  simp only [assign_flows_logit]
  rw [if_neg (not_le.mpr hF)]
  split_ifs with hS
  · exact equal_split_flows_sum (c :: cs) F (List.cons_ne_nil c cs)
  · exact normalized_flows_sum _ F hS

theorem assign_flows_proportional_sum (F : ℚ) (c : ℕ × ℚ)
    (cs : List (ℕ × ℚ)) (hF : 0 < F) :
    ((assign_flows_proportional F (c :: cs)).map Prod.snd).sum = F := by
  simp only [assign_flows_proportional]
  rw [if_neg (not_le.mpr hF)]
  split_ifs with hS
  · exact equal_split_flows_sum (c :: cs) F (List.cons_ne_nil c cs)
  · exact normalized_flows_sum _ F hS

/-- The minimum-selection fold implementing Python's
`min(costs.keys(), key=lambda x: costs[x])` returns an element of the
list. -/
theorem foldl_select_min_mem (cs : List (ℕ × ℚ)) :
    ∀ c : ℕ × ℚ,
      cs.foldl (fun acc rc => if rc.2 < acc.2 then rc else acc) c ∈ c :: cs := by
  induction cs with
  | nil => intro c; simp
  | cons d ds ih =>
    intro c
    rw [List.foldl_cons]
    rcases List.mem_cons.mp (ih (if d.2 < c.2 then d else c)) with h1 | h1
    · rw [h1]
      by_cases hd : d.2 < c.2
      · rw [if_pos hd]
        exact List.mem_cons_of_mem _ (List.mem_cons_self d ds)
      · rw [if_neg hd]
        exact List.mem_cons_self c _
    · exact List.mem_cons_of_mem _ (List.mem_cons_of_mem _ h1)

/-- The minimum-selection fold returns a cost less than or equal to every
cost in the list. -/
theorem foldl_select_min_le (cs : List (ℕ × ℚ)) :
    ∀ c x : ℕ × ℚ, x ∈ c :: cs →
      (cs.foldl (fun acc rc => if rc.2 < acc.2 then rc else acc) c).2 ≤ x.2 := by
  induction cs with
  | nil =>
    intro c x hx
    rw [List.mem_singleton] at hx
    subst hx
    exact le_refl _
  | cons d ds ih =>
    intro c x hx
    rw [List.foldl_cons]
    have hinit : (if d.2 < c.2 then d else c).2 ≤ c.2 ∧
        (if d.2 < c.2 then d else c).2 ≤ d.2 := by
      by_cases hd : d.2 < c.2
      · rw [if_pos hd]; exact ⟨hd.le, le_refl _⟩
      · rw [if_neg hd]; exact ⟨le_refl _, not_lt.mp hd⟩
    have hhead := ih (if d.2 < c.2 then d else c) _
      (List.mem_cons_self (if d.2 < c.2 then d else c) ds)
    rcases List.mem_cons.mp hx with h1 | h1
    · subst h1
      exact le_trans hhead hinit.1
    · rcases List.mem_cons.mp h1 with h2 | h2
      · subst h2
        exact le_trans hhead hinit.2
      · exact ih _ x (List.mem_cons_of_mem _ h2)

end AssignmentMethods

/-- C5: for every non-empty cost map and every `total_flow > 0`, the flows
returned by `assign_flows_logit` and by `assign_flows_proportional` sum
exactly to `total_flow` in exact rational arithmetic, for any function
`expf` standing in for `np.exp` (conservation does not depend on it). -/
theorem C5_flow_conservation (expf : ℚ → ℚ) (theta F : ℚ) (c : ℕ × ℚ)
    (cs : List (ℕ × ℚ)) (hF : 0 < F) :
    ((AssignmentMethods.assign_flows_logit expf theta F (c :: cs)).map
      Prod.snd).sum = F ∧
    ((AssignmentMethods.assign_flows_proportional F (c :: cs)).map
      Prod.snd).sum = F :=
  ⟨AssignmentMethods.assign_flows_logit_sum expf theta F c cs hF,
   AssignmentMethods.assign_flows_proportional_sum F c cs hF⟩

/-- C5 witness: conservation at `total_flow = 2` over the two-entry cost map
`{0 ↦ 1, 1 ↦ 3}` with `theta = 1` and a constant stand-in for `exp`. -/
theorem C5_witness :
    ((AssignmentMethods.assign_flows_logit (fun _ => 1) 1 2
      [(0, 1), (1, 3)]).map Prod.snd).sum = 2 ∧
    ((AssignmentMethods.assign_flows_proportional 2
      [(0, 1), (1, 3)]).map Prod.snd).sum = 2 :=
  C5_flow_conservation (fun _ => 1) 1 2 (0, 1) [(1, 3)] (by norm_num)

/-- C9: for every non-empty cost map with a unique minimum-cost key `k` and
every `total_flow > 0`, `assign_flows_deterministic` assigns the entire
`total_flow` to `k` and `0.0` to every other key; and whenever the candidate
set is empty or `total_flow <= 0`, every assigned flow is zero. -/
theorem C9_deterministic_policy (F : ℚ) (c : ℕ × ℚ) (cs : List (ℕ × ℚ))
    (k : ℕ) (v : ℚ) (hmem : (k, v) ∈ c :: cs)
    (hmin : ∀ p ∈ c :: cs, p.1 ≠ k → v < p.2) (hF : 0 < F) :
    AssignmentMethods.assign_flows_deterministic F (c :: cs) =
      (c :: cs).map (fun rc => (rc.1, if rc.1 = k then F else 0)) ∧
    ∀ (G : ℚ) (l : List (ℕ × ℚ)), G ≤ 0 →
      ∀ p ∈ AssignmentMethods.assign_flows_deterministic G l, p.2 = 0 := by
  constructor
  · simp only [AssignmentMethods.assign_flows_deterministic]
    rw [if_neg (not_le.mpr hF)]
    have hmmem := AssignmentMethods.foldl_select_min_mem cs c
    have hmle := AssignmentMethods.foldl_select_min_le cs c (k, v) hmem
    have hk : (cs.foldl (fun acc rc => if rc.2 < acc.2 then rc else acc) c).1
        = k := by
      by_contra hne
      exact absurd hmle (not_le.mpr (hmin _ hmmem hne))
    rw [hk]
  · intro G l hG p hp
    cases l with
    | nil => simp [AssignmentMethods.assign_flows_deterministic] at hp
    | cons d ds =>
      simp only [AssignmentMethods.assign_flows_deterministic,
        if_pos hG] at hp
      obtain ⟨q, _, rfl⟩ := List.mem_map.mp hp
      rfl

/-- C9 witness: `assign_flows_deterministic(7, {0: 1, 1: 5, 2: 3})` assigns
all `7` to key `0` and `0` elsewhere; non-positive flow yields all zeros. -/
theorem C9_witness :
    AssignmentMethods.assign_flows_deterministic 7
        ([(0, 1), (1, 5), (2, 3)] : List (ℕ × ℚ)) =
      ([(0, 1), (1, 5), (2, 3)] : List (ℕ × ℚ)).map
        (fun rc => (rc.1, if rc.1 = 0 then 7 else 0)) ∧
    ∀ (G : ℚ) (l : List (ℕ × ℚ)), G ≤ 0 →
      ∀ p ∈ AssignmentMethods.assign_flows_deterministic G l, p.2 = 0 :=
  C9_deterministic_policy 7 (0, 1) [(1, 5), (2, 3)] 0 1 (by decide)
    (by decide) (by norm_num)

namespace QueueDynamics

theorem update_queue_step_nonneg (capacity current_queue arrival_rate dt : ℚ) :
    0 ≤ update_queue_step capacity current_queue arrival_rate dt := by
  unfold update_queue_step
  dsimp only
  split_ifs <;> linarith

end QueueDynamics

/-- C3 counterexample: `compute_waiting_time` is not non-decreasing in
`lambda` for fixed capacity `1` and queue `1`: raising the arrival rate from
`0.98` to `0.99` crosses the clipping threshold `0.99 * capacity`, where the
rate is clipped down to `0.95 * capacity`, and the waiting time drops from
`50` to `20`. -/
theorem C3_counterexample :
    (0:ℚ) ≤ 98/100 ∧ (98/100 : ℚ) ≤ 99/100 ∧ (0:ℚ) < 1 ∧ (0:ℚ) ≤ 1 ∧
    QueueDynamics.compute_waiting_time (98/100) 1 1 = 50 ∧
    QueueDynamics.compute_waiting_time (99/100) 1 1 = 20 ∧
    ¬ (QueueDynamics.compute_waiting_time (98/100) 1 1 ≤
        QueueDynamics.compute_waiting_time (99/100) 1 1) := by
  refine ⟨by norm_num, by norm_num, by norm_num, by norm_num, ?_, ?_, ?_⟩ <;>
    norm_num [QueueDynamics.compute_waiting_time, QueueDynamics.clip_lambda]

/-- C3 (amended): for every fixed capacity `> 0`,
`QueueDynamics.compute_waiting_time(lambda, capacity, current_queue)` is
non-decreasing in `current_queue` (for `current_queue >= 0` with `lambda`
fixed), and non-decreasing in `lambda` on the region below the clipping
threshold (`0 <= lambda1 <= lambda2 < 0.99 * capacity`, with `current_queue
>= 0` fixed). Across the clipping threshold it can strictly decrease, so the
unrestricted claim in `lambda` fails. -/
theorem C3_waiting_time_monotone (capacity : ℚ) (hc : 0 < capacity) :
    (∀ lambda_r q1 q2 : ℚ, 0 ≤ q1 → q1 ≤ q2 →
      QueueDynamics.compute_waiting_time lambda_r capacity q1 ≤
        QueueDynamics.compute_waiting_time lambda_r capacity q2) ∧
    (∀ current_queue l1 l2 : ℚ, 0 ≤ current_queue → 0 ≤ l1 → l1 ≤ l2 →
      l2 < capacity * (99/100) →
      QueueDynamics.compute_waiting_time l1 capacity current_queue ≤
        QueueDynamics.compute_waiting_time l2 capacity current_queue) :=
  ⟨fun l q1 q2 _ hq12 =>
    QueueDynamics.compute_waiting_time_mono_queue hc l q1 q2 hq12,
   fun q l1 l2 hq h1 h12 h2 =>
    QueueDynamics.compute_waiting_time_mono_lambda hc q l1 l2 hq h1 h12 h2⟩

/-- C3 witness: the amended monotonicity applied at capacity `1`: in the
queue (`1 ≤ 2` at rate `1/2`) and in the arrival rate
(`1/4 ≤ 1/2 < 0.99` at queue `1`). -/
theorem C3_witness :
    QueueDynamics.compute_waiting_time (1/2) 1 1 ≤
      QueueDynamics.compute_waiting_time (1/2) 1 2 ∧
    QueueDynamics.compute_waiting_time (1/4) 1 1 ≤
      QueueDynamics.compute_waiting_time (1/2) 1 1 :=
  ⟨(C3_waiting_time_monotone 1 (by norm_num)).1 (1/2) 1 2 (by norm_num)
      (by norm_num),
   (C3_waiting_time_monotone 1 (by norm_num)).2 1 (1/4) (1/2) (by norm_num)
      (by norm_num) (by norm_num) (by norm_num)⟩

/-- C10: for every `lambda > 0` and `capacity > 0`, the clipped utilization
`rho = clip_lambda(lambda, capacity) / capacity` is strictly below `0.99`
(and equals exactly `0.95` when the clip fired), so the two `rho >= 0.99`
fallback branches of `compute_waiting_time` are unreachable: the returned
value always comes from the `rho < 0.99` formulas. -/
theorem C10_no_fallback_branch (lambda_r capacity current_queue : ℚ)
    (hl : 0 < lambda_r) (hc : 0 < capacity) :
    QueueDynamics.clip_lambda lambda_r capacity / capacity < 99/100 ∧
    (capacity * (99/100) ≤ lambda_r →
      QueueDynamics.clip_lambda lambda_r capacity / capacity = 95/100) ∧
    QueueDynamics.compute_waiting_time lambda_r capacity current_queue =
      (if 0 < current_queue then
        current_queue / capacity +
          (QueueDynamics.clip_lambda lambda_r capacity / capacity) /
            (capacity *
              (1 - QueueDynamics.clip_lambda lambda_r capacity / capacity))
       else
        max 0
          (((QueueDynamics.clip_lambda lambda_r capacity / capacity) /
              (1 + QueueDynamics.clip_lambda lambda_r capacity / capacity)) /
            (capacity - QueueDynamics.clip_lambda lambda_r capacity))) := by
  refine ⟨QueueDynamics.clip_lambda_rho_lt hl hc, fun h => ?_,
    QueueDynamics.compute_waiting_time_eval_pos hl hc current_queue⟩
  unfold QueueDynamics.clip_lambda
  rw [if_pos h, mul_comm, mul_div_assoc, div_self (ne_of_gt hc), mul_one]

/-- C10 witness: the no-fallback property applied at `lambda = 2`,
`capacity = 1`, `current_queue = 1` (the clip fires: `2 >= 0.99`). -/
theorem C10_witness :
    QueueDynamics.clip_lambda 2 1 / 1 < 99/100 ∧
    ((1:ℚ) * (99/100) ≤ 2 → QueueDynamics.clip_lambda 2 1 / 1 = 95/100) ∧
    QueueDynamics.compute_waiting_time 2 1 1 =
      (if (0:ℚ) < 1 then
        1 / 1 + (QueueDynamics.clip_lambda 2 1 / 1) /
          (1 * (1 - QueueDynamics.clip_lambda 2 1 / 1))
       else
        max 0 (((QueueDynamics.clip_lambda 2 1 / 1) /
            (1 + QueueDynamics.clip_lambda 2 1 / 1)) /
          (1 - QueueDynamics.clip_lambda 2 1))) :=
  C10_no_fallback_branch 2 1 1 (by norm_num) (by norm_num)

/-- C4: queue lengths maintained by `QueueDynamics` are non-negative at every
time step: they start zero-initialized and `update_queue_states` never writes
a negative value (any candidate next-queue value below `0.01` is snapped to
`0`), for every capacity, every `dt` and every (even negative) arrival-rate
sequence. -/
theorem C4_queue_nonneg (capacity dt : ℚ) (arrival : ℕ → ℚ) (t : ℕ) :
    0 ≤ QueueDynamics.queue_traj capacity dt arrival t := by
  cases t with
  | zero => exact le_refl 0
  | succ t => exact QueueDynamics.update_queue_step_nonneg _ _ _ _

namespace CleaningCrewOptimizer

/-- A crew/task location for `CleaningCrewOptimizer`: either a crew base
`Base_k` (whose floor `k` is encoded in its name and parsed by
`_calculate_travel_time`) or a restroom facility, identified here by a
numeric id. -/
inductive Location where
  | base (floor : ℤ)
  | facility (id : ℕ)
deriving DecidableEq, Repr

/-- The floor lookup inside `CleaningCrewOptimizer._calculate_travel_time`:
`Base_k` locations carry their floor in the name; any other location is
looked up in the `restrooms` configuration and silently defaults to floor
`1` when absent (`self.restrooms.get(loc, {}).get('floor', 1)`). -/
def location_floor (restrooms : List (ℕ × ℤ)) : Location → ℤ
  | .base f => f
  | .facility i => (restrooms.lookup i).getD 1

/-- `CleaningCrewOptimizer._calculate_travel_time` from
`src/cleaning_crew_optimizer.py`: a 180 s base plus 60 s per floor of
absolute floor difference. It is a total function with no travel-time
matrix and no failure path. -/
def calculate_travel_time (restrooms : List (ℕ × ℤ))
    (from_loc to_loc : Location) : ℚ :=
  let from_floor := location_floor restrooms from_loc
  let to_floor := location_floor restrooms to_loc
  180 + ((to_floor - from_floor).natAbs : ℚ) * 60

/-- The `CrewStatus` enum (`break` is a Lean keyword, hence `break_`). -/
inductive CrewStatus where
  | idle
  | cleaning
  | traveling
  | break_
  | emergency_response
deriving DecidableEq, Repr

/-- The `CleaningType` enum. -/
inductive CleaningType where
  | routine
  | emergency
  | call_in
  | deep_clean
  | usage_based
deriving DecidableEq, Repr

/-- The `CleaningTask` dataclass (costs fields not touched by the modelled
operations are omitted; task ids are numeric counters). -/
structure CleaningTask where
  task_id : ℕ
  restroom_id : ℕ
  cleaning_type : CleaningType
  priority : ℕ
  estimated_duration : ℚ
  required_time : ℚ
  deadline : Option ℚ := none
  created_time : ℚ := 0
  assigned_crew : List ℕ := []
  completion_time : Option ℚ := none
  passenger_impact_score : ℚ := 0
deriving DecidableEq, Repr

/-- The `CleaningCrewMember` dataclass (crew ids are numeric). -/
structure CleaningCrewMember where
  crew_id : ℕ
  status : CrewStatus
  current_location : Location
  shift_start : ℚ
  shift_end : ℚ
  hourly_rate : ℚ
  skill_level : ℚ
  supplies_remaining : ℚ := 100
  current_task_end_time : ℚ := 0
  total_work_time : ℚ := 0
  last_restock_time : ℚ := 0
deriving DecidableEq, Repr

/-- `CleaningCrewOptimizer._is_crew_available`: inside shift hours, and not
busy (`cleaning`/`traveling`/`break`) past the current time. -/
def is_crew_available (crew : CleaningCrewMember) (current_time : ℚ) : Bool :=
  if current_time < crew.shift_start ∨ crew.shift_end < current_time then
    false
  else if (crew.status = CrewStatus.cleaning ∨ crew.status = CrewStatus.traveling ∨
      crew.status = CrewStatus.break_) ∧ current_time < crew.current_task_end_time then
    false
  else
    true

/-- The task-interruption loop of `CleaningCrewOptimizer._preempt_crew_task`:
find the first open task carrying the crew member, remove them from its
`assigned_crew`, and if no crew remains, clear the crew list and set
`required_time` to `current_time + 1800`. -/
def preempt_interrupt (crew_id : ℕ) (current_time : ℚ) :
    List CleaningTask → List CleaningTask
  | [] => []
  | t :: ts =>
    if crew_id ∈ t.assigned_crew ∧ t.completion_time = none then
      (if t.assigned_crew.erase crew_id = [] then
        { t with assigned_crew := [], required_time := current_time + 1800 }
       else
        { t with assigned_crew := t.assigned_crew.erase crew_id }) :: ts
    else
      t :: preempt_interrupt crew_id current_time ts

/-- `CleaningCrewOptimizer._preempt_crew_task`: interrupt the crew member's
current task and hand the urgent task exactly that crew member. -/
def preempt_crew_task (crew_id : ℕ) (current_time : ℚ)
    (tasks : List CleaningTask) (urgent_task : CleaningTask) :
    List CleaningTask × CleaningTask :=
  (preempt_interrupt crew_id current_time tasks,
   { urgent_task with assigned_crew := [crew_id] })

/-- `CleaningCrewOptimizer._calculate_passenger_impact`: weighted, capped
combination of arrival rate, queue length and waiting time. -/
def calculate_passenger_impact (arrival_rate queue_length waiting_time : ℚ) :
    ℚ :=
  (3/10 * min (arrival_rate / (2/10)) 1 + 4/10 * min (queue_length / 10) 1 +
    3/10 * min (waiting_time / 600) 1) * 100

/-- The trigger cascade of `_check_for_real_time_call_ins` for one facility:
emergency (priority 5) at total queue `> 1.5` or max wait `> 120` s, or on a
random critical failure (the source draws `random.random() < 0.0003`; the
draw's outcome is passed in as a boolean); call-in priority 4 at queue
`> 0.8` or wait `> 60` s; call-in priority 3 at total arrival `> 0.08`. -/
def urgent_trigger (total_queue max_wait total_arrival : ℚ)
    (random_failure : Bool) : Option (ℕ × Bool) :=
  if total_queue > 3/2 ∨ max_wait > 120 then some (5, true)
  else if random_failure then some (5, true)
  else if total_queue > 4/5 ∨ max_wait > 60 then some (4, false)
  else if total_arrival > 8/100 then some (3, false)
  else none

/-- The duplicate-suppression test of `_check_for_real_time_call_ins`: an
open task (`completion_time is None`) for this facility with priority `>= 3`
created within 1800 s of the current time. -/
def has_recent_open_urgent (tasks : List CleaningTask) (restroom_id : ℕ)
    (current_time : ℚ) : Bool :=
  tasks.any fun t => decide (t.restroom_id = restroom_id ∧ 3 ≤ t.priority ∧
    |t.created_time - current_time| < 1800 ∧ t.completion_time = none)

/-- The per-facility body of `_check_for_real_time_call_ins`: if a trigger
fires and no recent open urgent task exists for the facility, exactly one
new CALL_IN or EMERGENCY task is created (id from the call-in/emergency
counter, required immediately, deadline 1800 s for emergencies and 3600 s
for call-ins). -/
def check_call_in_for_facility (tasks : List CleaningTask)
    (durations : CleaningType → ℚ) (restroom_id counter : ℕ)
    (current_time total_arrival total_queue max_wait : ℚ)
    (random_failure : Bool) : List CleaningTask :=
  match urgent_trigger total_queue max_wait total_arrival random_failure with
  | none => []
  | some (p, is_emergency) =>
    if has_recent_open_urgent tasks restroom_id current_time then []
    else
      [{ task_id := counter
         restroom_id := restroom_id
         cleaning_type := if is_emergency then CleaningType.emergency
                          else CleaningType.call_in
         priority := p
         estimated_duration := durations (if is_emergency then
           CleaningType.emergency else CleaningType.call_in)
         required_time := current_time
         deadline := some (current_time +
           (if is_emergency then 1800 else 3600))
         created_time := current_time
         assigned_crew := []
         completion_time := none
         passenger_impact_score :=
           calculate_passenger_impact total_arrival total_queue max_wait }]

/-- The supply multiplier of `_consume_supplies` / `_check_crew_supplies`:
deep cleaning uses double supplies, emergency cleaning 1.5 times. -/
def supplies_multiplier : CleaningType → ℚ
  | CleaningType.deep_clean => 2
  | CleaningType.emergency => 3/2
  | _ => 1

/-- `CleaningCrewOptimizer._consume_supplies`: subtract the per-cleaning
supplies (scaled by type), floored at 0. -/
def consume_supplies (supplies_per_cleaning : ℚ)
    (crew : CleaningCrewMember) (ctype : CleaningType) :
    CleaningCrewMember :=
  { crew with
      supplies_remaining :=
        max 0 (crew.supplies_remaining -
          supplies_per_cleaning * supplies_multiplier ctype) }

/-- `CleaningCrewOptimizer._calculate_restock_time`: travel to the supply
depot, restock, travel back. -/
def calculate_restock_time (restrooms : List (ℕ × ℤ)) (restock_time : ℚ)
    (depot : Location) (crew : CleaningCrewMember) : ℚ :=
  calculate_travel_time restrooms crew.current_location depot + restock_time +
    calculate_travel_time restrooms depot crew.current_location

/-- `CleaningCrewOptimizer._restock_crew_supplies`: the crew member travels
for the whole restock round trip and their supplies are reset to 100. -/
def restock_crew_supplies (restrooms : List (ℕ × ℤ)) (restock_time : ℚ)
    (depot : Location) (crew : CleaningCrewMember) (current_time : ℚ) :
    CleaningCrewMember :=
  { crew with
      status := CrewStatus.traveling
      current_task_end_time := current_time +
        calculate_restock_time restrooms restock_time depot crew
      supplies_remaining := 100
      last_restock_time := current_time }

/-- The tail of `CleaningCrewOptimizer.update_crew_status` for one crew
member once their task is complete: reset to idle, accrue the team-divided
work time, consume supplies, and if supplies fall below one cleaning's
requirement, immediately send the crew member on a restock trip. -/
def finish_task_update_crew (restrooms : List (ℕ × ℤ))
    (supplies_per_cleaning restock_time : ℚ) (depot : Location)
    (crew : CleaningCrewMember) (ctype : CleaningType) (team_size : ℕ)
    (estimated_duration current_time : ℚ) : CleaningCrewMember :=
  let crew1 := { crew with
    status := CrewStatus.idle
    current_task_end_time := 0
    total_work_time := crew.total_work_time +
      estimated_duration / (team_size : ℚ) }
  let crew2 := consume_supplies supplies_per_cleaning crew1 ctype
  if crew2.supplies_remaining < supplies_per_cleaning then
    restock_crew_supplies restrooms restock_time depot crew2 current_time
  else
    crew2

end CleaningCrewOptimizer

namespace CleaningCrewOptimizer

/-- `_preempt_crew_task`'s interruption loop on a task list whose first
task carrying the crew member is the sole-assignee task `A`: `A` loses its
crew and is rescheduled to `current_time + 1800`; everything else is
unchanged. -/
theorem preempt_interrupt_append (crew_id : ℕ) (now : ℚ)
    (post : List CleaningTask) (A : CleaningTask)
    (hA : A.assigned_crew = [crew_id]) (hAopen : A.completion_time = none) :
    ∀ pre : List CleaningTask,
      (∀ t ∈ pre, ¬(crew_id ∈ t.assigned_crew ∧ t.completion_time = none)) →
      preempt_interrupt crew_id now (pre ++ A :: post) =
        pre ++ { A with assigned_crew := [],
                        required_time := now + 1800 } :: post := by
  intro pre
  induction pre with
  | nil =>
    intro _
    simp only [List.nil_append]
    simp only [preempt_interrupt]
    rw [if_pos ⟨hA ▸ List.mem_singleton_self crew_id, hAopen⟩]
    have he : A.assigned_crew.erase crew_id = [] := by
      rw [hA]
      simp
    rw [if_pos he]
  | cons p ps ih =>
    intro hpre
    simp only [List.cons_append]
    simp only [preempt_interrupt]
    rw [if_neg (hpre p (List.mem_cons_self p ps)),
      ih (fun t ht => hpre t (List.mem_cons_of_mem p ht))]

end CleaningCrewOptimizer

/-- C1 counterexample: computing the crew travel time for a pair of
locations both absent from the configuration does not raise any error: the
source `_calculate_travel_time` is a total function with no lookup table,
and for the missing pair (facility 7, facility 8) with an empty `restrooms`
configuration it returns the floor-derived default 180 s (both floors
default to 1). -/
theorem C1_counterexample :
    CleaningCrewOptimizer.calculate_travel_time []
      (CleaningCrewOptimizer.Location.facility 7)
      (CleaningCrewOptimizer.Location.facility 8) = 180 := by
  norm_num [CleaningCrewOptimizer.calculate_travel_time,
    CleaningCrewOptimizer.location_floor]

/-- C1 (amended): for every pair of locations absent from the `restrooms`
configuration, `_calculate_travel_time` raises nothing and returns the
default travel time: both floors silently default to 1, so the result is
the 180 s base (in general `180 + 60 * |floor difference|`); there is no
travel-time matrix and no fatal configuration error in the code. -/
theorem C1_missing_pair_default (rs : List (ℕ × ℤ)) (i j : ℕ)
    (hi : rs.lookup i = none) (hj : rs.lookup j = none) :
    CleaningCrewOptimizer.calculate_travel_time rs
      (CleaningCrewOptimizer.Location.facility i)
      (CleaningCrewOptimizer.Location.facility j) = 180 := by
  unfold CleaningCrewOptimizer.calculate_travel_time
  simp only [CleaningCrewOptimizer.location_floor]
  rw [hi, hj]
  norm_num

/-- C1 witness: the default at the missing pair (facility 7, facility 8)
under a configuration that only knows facility 1. -/
theorem C1_witness :
    CleaningCrewOptimizer.calculate_travel_time [(1, 3)]
      (CleaningCrewOptimizer.Location.facility 7)
      (CleaningCrewOptimizer.Location.facility 8) = 180 :=
  C1_missing_pair_default [(1, 3)] 7 8 rfl rfl

/-- C2 counterexample: the crew travel time from a location to itself is not
0: for facility 5 (absent from the configuration, as the claim allows) the
source returns the 180 s base travel time. -/
theorem C2_counterexample :
    CleaningCrewOptimizer.calculate_travel_time []
      (CleaningCrewOptimizer.Location.facility 5)
      (CleaningCrewOptimizer.Location.facility 5) ≠ 0 := by
  norm_num [CleaningCrewOptimizer.calculate_travel_time,
    CleaningCrewOptimizer.location_floor]

/-- C2 (amended): for every location `X` and every configuration,
`_calculate_travel_time(X, X)` equals the 180 s base travel time (the floor
difference is 0), not 0. -/
theorem C2_same_location_travel (rs : List (ℕ × ℤ))
    (loc : CleaningCrewOptimizer.Location) :
    CleaningCrewOptimizer.calculate_travel_time rs loc loc = 180 := by
  unfold CleaningCrewOptimizer.calculate_travel_time
  simp

/-- C6 counterexample: preempting crew member 1, sole assignee of a task
with `required_time = 0`, at `current_time = 1000` leaves the task with
`required_time = 2800 = current_time + 1800`, not `1800 = 0 + 1800`: the
source reschedules relative to the preemption moment, not by pushing the
task's own `required_time` forward by 1800 s. -/
theorem C6_counterexample :
    (CleaningCrewOptimizer.preempt_interrupt 1 1000
        [{ task_id := 1, restroom_id := 0,
           cleaning_type := CleaningCrewOptimizer.CleaningType.routine,
           priority := 2, estimated_duration := 15, required_time := 0,
           assigned_crew := [1] }]).map
        CleaningCrewOptimizer.CleaningTask.required_time = [2800] ∧
    (2800 : ℚ) ≠ 0 + 1800 := by
  constructor
  · norm_num [CleaningCrewOptimizer.preempt_interrupt]
  · norm_num

/-- C6 (amended): when a crew member who is the sole assignee of task `A`
(the first open task carrying them) is preempted for urgent task `B`,
afterwards `A` has an empty `assigned_crew` list with its `required_time`
set to `current_time + 1800` (rescheduled 30 minutes after the preemption
moment — not its previous `required_time` plus 1800 s), and `B`'s
`assigned_crew` contains exactly the preempting crew member. -/
theorem C6_preemption_invariant (crew_id : ℕ) (now : ℚ)
    (pre post : List CleaningCrewOptimizer.CleaningTask)
    (A urgent : CleaningCrewOptimizer.CleaningTask)
    (hpre : ∀ t ∈ pre,
      ¬(crew_id ∈ t.assigned_crew ∧ t.completion_time = none))
    (hA : A.assigned_crew = [crew_id]) (hAopen : A.completion_time = none) :
    (CleaningCrewOptimizer.preempt_crew_task crew_id now
        (pre ++ A :: post) urgent).1 =
      pre ++ { A with assigned_crew := [],
                      required_time := now + 1800 } :: post ∧
    (CleaningCrewOptimizer.preempt_crew_task crew_id now
        (pre ++ A :: post) urgent).2.assigned_crew = [crew_id] :=
  ⟨CleaningCrewOptimizer.preempt_interrupt_append crew_id now post A hA
      hAopen pre hpre, rfl⟩

/-- C6 witness: the amended preemption invariant at a concrete state: crew 2
preempted at time 500 from its sole task (required at 100) to an urgent
emergency task. -/
theorem C6_witness :
    (CleaningCrewOptimizer.preempt_crew_task 2 500
        ([] ++
          ({ task_id := 3, restroom_id := 1,
             cleaning_type := CleaningCrewOptimizer.CleaningType.routine,
             priority := 2, estimated_duration := 15, required_time := 100,
             assigned_crew := [2] } :
            CleaningCrewOptimizer.CleaningTask) :: [])
        { task_id := 4, restroom_id := 2,
          cleaning_type := CleaningCrewOptimizer.CleaningType.emergency,
          priority := 5, estimated_duration := 25,
          required_time := 500 }).1 =
      [] ++
        ({ ({ task_id := 3, restroom_id := 1,
              cleaning_type := CleaningCrewOptimizer.CleaningType.routine,
              priority := 2, estimated_duration := 15, required_time := 100,
              assigned_crew := [2] } :
             CleaningCrewOptimizer.CleaningTask) with
           assigned_crew := [], required_time := 500 + 1800 }) :: [] ∧
    (CleaningCrewOptimizer.preempt_crew_task 2 500
        ([] ++
          ({ task_id := 3, restroom_id := 1,
             cleaning_type := CleaningCrewOptimizer.CleaningType.routine,
             priority := 2, estimated_duration := 15, required_time := 100,
             assigned_crew := [2] } :
            CleaningCrewOptimizer.CleaningTask) :: [])
        { task_id := 4, restroom_id := 2,
          cleaning_type := CleaningCrewOptimizer.CleaningType.emergency,
          priority := 5, estimated_duration := 25,
          required_time := 500 }).2.assigned_crew = [2] :=
  C6_preemption_invariant 2 500 [] []
    { task_id := 3, restroom_id := 1,
      cleaning_type := CleaningCrewOptimizer.CleaningType.routine,
      priority := 2, estimated_duration := 15, required_time := 100,
      assigned_crew := [2] }
    { task_id := 4, restroom_id := 2,
      cleaning_type := CleaningCrewOptimizer.CleaningType.emergency,
      priority := 5, estimated_duration := 25, required_time := 500 }
    (by simp) rfl rfl

/-- C7: per facility, `_check_for_real_time_call_ins` never creates a second
urgent (priority `>= 3`) task while a still-open one (completion_time None)
created within 1800 s exists (the duplicate-suppression filter empties the
result), and under a triggering condition with no such recent open task it
creates exactly one new CALL_IN or EMERGENCY task for that facility. -/
theorem C7_urgent_task_suppression
    (tasks : List CleaningCrewOptimizer.CleaningTask)
    (durations : CleaningCrewOptimizer.CleaningType → ℚ) (r counter : ℕ)
    (now ta tq mw : ℚ) (rf : Bool) :
    (CleaningCrewOptimizer.has_recent_open_urgent tasks r now = true →
      CleaningCrewOptimizer.check_call_in_for_facility tasks durations r
        counter now ta tq mw rf = []) ∧
    (CleaningCrewOptimizer.has_recent_open_urgent tasks r now = false →
      ∀ (p : ℕ) (e : Bool),
        CleaningCrewOptimizer.urgent_trigger tq mw ta rf = some (p, e) →
        ∃ t, CleaningCrewOptimizer.check_call_in_for_facility tasks durations
            r counter now ta tq mw rf = [t] ∧
          t.restroom_id = r ∧ 3 ≤ t.priority ∧
          (t.cleaning_type = CleaningCrewOptimizer.CleaningType.call_in ∨
            t.cleaning_type = CleaningCrewOptimizer.CleaningType.emergency) ∧
          t.created_time = now ∧ t.completion_time = none) := by
  constructor
  · intro h
    rcases htr : CleaningCrewOptimizer.urgent_trigger tq mw ta rf with
      _ | ⟨p, e⟩ <;>
      simp [CleaningCrewOptimizer.check_call_in_for_facility, htr, h]
  · intro h p e htr
    have hp : 3 ≤ p := by
      unfold CleaningCrewOptimizer.urgent_trigger at htr
      split_ifs at htr <;>
        first
          | (simp only [Option.some.injEq, Prod.mk.injEq] at htr; omega)
          | simp at htr
    have hty : (if e then CleaningCrewOptimizer.CleaningType.emergency
          else CleaningCrewOptimizer.CleaningType.call_in) =
        CleaningCrewOptimizer.CleaningType.call_in ∨
        (if e then CleaningCrewOptimizer.CleaningType.emergency
          else CleaningCrewOptimizer.CleaningType.call_in) =
        CleaningCrewOptimizer.CleaningType.emergency := by
      cases e
      · exact Or.inl rfl
      · exact Or.inr rfl
    unfold CleaningCrewOptimizer.check_call_in_for_facility
    rw [htr]
    dsimp only
    rw [if_neg (by rw [h]; exact Bool.false_ne_true)]
    exact ⟨_, rfl, rfl, hp, hty, rfl, rfl⟩

/-- C7 witness: a single waiting-time spike (total queue 2 > 1.5) at a
facility with no recent open urgent task yields exactly one new
EMERGENCY/CALL_IN task. -/
theorem C7_witness :
    ∃ t, CleaningCrewOptimizer.check_call_in_for_facility []
        (fun _ => 20) 0 1000 0 0 2 0 false = [t] ∧
      t.restroom_id = 0 ∧ 3 ≤ t.priority ∧
      (t.cleaning_type = CleaningCrewOptimizer.CleaningType.call_in ∨
        t.cleaning_type = CleaningCrewOptimizer.CleaningType.emergency) ∧
      t.created_time = 0 ∧ t.completion_time = none :=
  (C7_urgent_task_suppression [] (fun _ => 20) 0 1000 0 0 2 0 false).2
    rfl 5 true (by norm_num [CleaningCrewOptimizer.urgent_trigger])

/-- C8: a crew member whose supplies fall below `supplies_per_cleaning` on
completing a cleaning task is immediately sent on a restock trip: their
status becomes `traveling` with `current_task_end_time` the completion time
plus the full depot round trip, they are unavailable for any assignment
until that time, and restocking always resets `supplies_remaining` to
exactly 100. -/
theorem C8_supply_depletion (rs : List (ℕ × ℤ)) (per restock_time : ℚ)
    (depot : CleaningCrewOptimizer.Location)
    (crew : CleaningCrewOptimizer.CleaningCrewMember)
    (ctype : CleaningCrewOptimizer.CleaningType) (team_size : ℕ)
    (dur now : ℚ)
    (hlow : max 0 (crew.supplies_remaining -
      per * CleaningCrewOptimizer.supplies_multiplier ctype) < per) :
    (CleaningCrewOptimizer.finish_task_update_crew rs per restock_time depot
        crew ctype team_size dur now).status =
      CleaningCrewOptimizer.CrewStatus.traveling ∧
    (CleaningCrewOptimizer.finish_task_update_crew rs per restock_time depot
        crew ctype team_size dur now).supplies_remaining = 100 ∧
    (CleaningCrewOptimizer.finish_task_update_crew rs per restock_time depot
        crew ctype team_size dur now).current_task_end_time =
      now + (CleaningCrewOptimizer.calculate_travel_time rs
          crew.current_location depot + restock_time +
        CleaningCrewOptimizer.calculate_travel_time rs depot
          crew.current_location) ∧
    (∀ t : ℚ, t < (CleaningCrewOptimizer.finish_task_update_crew rs per
        restock_time depot crew ctype team_size dur now).current_task_end_time →
      CleaningCrewOptimizer.is_crew_available
        (CleaningCrewOptimizer.finish_task_update_crew rs per restock_time
          depot crew ctype team_size dur now) t = false) ∧
    (∀ (crew' : CleaningCrewOptimizer.CleaningCrewMember) (now' : ℚ),
      (CleaningCrewOptimizer.restock_crew_supplies rs restock_time depot
        crew' now').supplies_remaining = 100) := by
  unfold CleaningCrewOptimizer.finish_task_update_crew
    CleaningCrewOptimizer.consume_supplies
  dsimp only
  rw [if_pos hlow]
  refine ⟨rfl, rfl, rfl, ?_, fun crew' now' => rfl⟩
  intro t ht
  unfold CleaningCrewOptimizer.is_crew_available
    CleaningCrewOptimizer.restock_crew_supplies
  dsimp only
  split_ifs with h1 h2
  · rfl
  · rfl
  · exact absurd ⟨Or.inr (Or.inl rfl), ht⟩ h2

/-- C8 witness: a crew member with 10 supply units (below the 15 required
per cleaning) completing a routine task at time 0 is immediately restocked:
traveling status, busy for the whole depot round trip, supplies back to
100. -/
theorem C8_witness :
    (CleaningCrewOptimizer.finish_task_update_crew [] 15 600
        (CleaningCrewOptimizer.Location.base 2)
        { crew_id := 1, status := CleaningCrewOptimizer.CrewStatus.idle,
          current_location := CleaningCrewOptimizer.Location.base 1,
          shift_start := 0, shift_end := 28800, hourly_rate := 22,
          skill_level := 2, supplies_remaining := 10 }
        CleaningCrewOptimizer.CleaningType.routine 1 15 0).status =
      CleaningCrewOptimizer.CrewStatus.traveling ∧
    (CleaningCrewOptimizer.finish_task_update_crew [] 15 600
        (CleaningCrewOptimizer.Location.base 2)
        { crew_id := 1, status := CleaningCrewOptimizer.CrewStatus.idle,
          current_location := CleaningCrewOptimizer.Location.base 1,
          shift_start := 0, shift_end := 28800, hourly_rate := 22,
          skill_level := 2, supplies_remaining := 10 }
        CleaningCrewOptimizer.CleaningType.routine 1 15 0).supplies_remaining
      = 100 ∧
    (CleaningCrewOptimizer.finish_task_update_crew [] 15 600
        (CleaningCrewOptimizer.Location.base 2)
        { crew_id := 1, status := CleaningCrewOptimizer.CrewStatus.idle,
          current_location := CleaningCrewOptimizer.Location.base 1,
          shift_start := 0, shift_end := 28800, hourly_rate := 22,
          skill_level := 2, supplies_remaining := 10 }
        CleaningCrewOptimizer.CleaningType.routine 1 15 0).current_task_end_time
      = 0 + (CleaningCrewOptimizer.calculate_travel_time []
          ({ crew_id := 1, status := CleaningCrewOptimizer.CrewStatus.idle,
             current_location := CleaningCrewOptimizer.Location.base 1,
             shift_start := 0, shift_end := 28800, hourly_rate := 22,
             skill_level := 2, supplies_remaining := 10 } :
            CleaningCrewOptimizer.CleaningCrewMember).current_location
          (CleaningCrewOptimizer.Location.base 2) + 600 +
        CleaningCrewOptimizer.calculate_travel_time []
          (CleaningCrewOptimizer.Location.base 2)
          ({ crew_id := 1, status := CleaningCrewOptimizer.CrewStatus.idle,
             current_location := CleaningCrewOptimizer.Location.base 1,
             shift_start := 0, shift_end := 28800, hourly_rate := 22,
             skill_level := 2, supplies_remaining := 10 } :
            CleaningCrewOptimizer.CleaningCrewMember).current_location) ∧
    (∀ t : ℚ, t < (CleaningCrewOptimizer.finish_task_update_crew [] 15 600
        (CleaningCrewOptimizer.Location.base 2)
        { crew_id := 1, status := CleaningCrewOptimizer.CrewStatus.idle,
          current_location := CleaningCrewOptimizer.Location.base 1,
          shift_start := 0, shift_end := 28800, hourly_rate := 22,
          skill_level := 2, supplies_remaining := 10 }
        CleaningCrewOptimizer.CleaningType.routine 1 15 0).current_task_end_time →
      CleaningCrewOptimizer.is_crew_available
        (CleaningCrewOptimizer.finish_task_update_crew [] 15 600
          (CleaningCrewOptimizer.Location.base 2)
          { crew_id := 1, status := CleaningCrewOptimizer.CrewStatus.idle,
            current_location := CleaningCrewOptimizer.Location.base 1,
            shift_start := 0, shift_end := 28800, hourly_rate := 22,
            skill_level := 2, supplies_remaining := 10 }
          CleaningCrewOptimizer.CleaningType.routine 1 15 0) t = false) ∧
    (∀ (crew' : CleaningCrewOptimizer.CleaningCrewMember) (now' : ℚ),
      (CleaningCrewOptimizer.restock_crew_supplies [] 600
        (CleaningCrewOptimizer.Location.base 2) crew'
        now').supplies_remaining = 100) :=
  C8_supply_depletion [] 15 600 (CleaningCrewOptimizer.Location.base 2)
    { crew_id := 1, status := CleaningCrewOptimizer.CrewStatus.idle,
      current_location := CleaningCrewOptimizer.Location.base 1,
      shift_start := 0, shift_end := 28800, hourly_rate := 22,
      skill_level := 2, supplies_remaining := 10 }
    CleaningCrewOptimizer.CleaningType.routine 1 15 0
    (by norm_num [CleaningCrewOptimizer.supplies_multiplier])
